import Mathlib

/-!
Shallow embedding of the navaid-data parser in parse_v1150.py.

Python strings are modelled as lists of characters.  The Python string
methods used by the parser (lstrip, strip, split with separator a single
space and maxsplit 1, startswith) are modelled directly; int() and
float() are modelled on the plain decimal token syntax that the data
format uses (optional sign, digits, optional fractional part; exponent,
infinity and nan forms do not occur in this format and are not
modelled).  Python float results are represented exactly as rationals.
A failed decode step (failed tuple unpacking of split, failed int or
float conversion) raises ValueError in Python; calling the result of a
failed dict lookup raises TypeError.  Both are modelled by an Except
error value.
-/

/-- Characters that Python str.strip and str.lstrip remove (ASCII range). -/
def pyIsSpace (c : Char) : Bool :=
  c = ' ' || c = '\t' || c = '\n' || c = '\r' || c = '\x0b' || c = '\x0c'

/-- Python str.lstrip on a character list. -/
def lstripL (s : List Char) : List Char := s.dropWhile pyIsSpace

/-- Python str.rstrip on a character list. -/
def rstripL (s : List Char) : List Char := (s.reverse.dropWhile pyIsSpace).reverse

/-- Python str.strip on a character list. -/
def stripL (s : List Char) : List Char := rstripL (lstripL s)

/-- Python s.split(" ", 1) with successful two-element unpacking: split at
the first occurrence of the single space character.  Returns none when the
string holds no space character, in which case the Python two-variable
unpacking raises ValueError. -/
def splitFirstSpace : List Char → Option (List Char × List Char)
  | [] => none
  | c :: cs =>
    if c = ' ' then some ([], cs)
    else
      match splitFirstSpace cs with
      | none => none
      | some (t, r) => some (c :: t, r)

/-- One tokenizer step of the parser: rest.lstrip().split(" ", 1). -/
def nextField (s : List Char) : Option (List Char × List Char) :=
  splitFirstSpace (lstripL s)

/-- Numeric value of a list of decimal digits. -/
def natOfDigits (l : List Char) : Nat :=
  l.foldl (fun a c => a * 10 + (c.toNat - 48)) 0

/-- Value of a non-empty all-digit character list, none otherwise. -/
def digitsVal (l : List Char) : Option Nat :=
  if l.isEmpty then none
  else if l.all (fun c => c.isDigit) then some (natOfDigits l) else none

/-- Python int(s) on the decimal tokens of this data format. -/
def pyInt (s : List Char) : Option Int :=
  match stripL s with
  | '+' :: r => (digitsVal r).map (fun n => (n : Int))
  | '-' :: r => (digitsVal r).map (fun n => -(n : Int))
  | t => (digitsVal t).map (fun n => (n : Int))

/-- Unsigned decimal float body: digits with an optional fractional part. -/
def floatBody (l : List Char) : Option ℚ :=
  match l.dropWhile (fun c => c.isDigit) with
  | [] =>
    if (l.takeWhile (fun c => c.isDigit)).isEmpty then none
    else some ((natOfDigits (l.takeWhile (fun c => c.isDigit)) : ℚ))
  | '.' :: frac =>
    if frac.all (fun c => c.isDigit)
        && !((l.takeWhile (fun c => c.isDigit)).isEmpty && frac.isEmpty) then
      some ((natOfDigits (l.takeWhile (fun c => c.isDigit)) : ℚ)
        + (natOfDigits frac : ℚ) / ((10 : ℚ) ^ frac.length))
    else none
  | _ => none

/-- Python float(s) on the decimal tokens of this data format, exactly. -/
def pyFloat (s : List Char) : Option ℚ :=
  match stripL s with
  | '+' :: r => floatBody r
  | '-' :: r => (floatBody r).map (fun q => -q)
  | t => floatBody t

/-- NDB class (formerly reception range in nautical miles). -/
inductive NDBClass
  | LOCATOR
  | LOW_POWER
  | NORMAL
  | HIGH_POWER
deriving DecidableEq

/-- Integer value of an NDB enum member. -/
def NDBClass.val : NDBClass → Int
  | .LOCATOR => 15
  | .LOW_POWER => 25
  | .NORMAL => 50
  | .HIGH_POWER => 75

/-- The .name attribute of an NDB enum member. -/
def NDBClass.nameStr : NDBClass → List Char
  | .LOCATOR => "LOCATOR".toList
  | .LOW_POWER => "LOW_POWER".toList
  | .NORMAL => "NORMAL".toList
  | .HIGH_POWER => "HIGH_POWER".toList

/-- VOR class (formerly reception range in nautical miles). -/
inductive VORClass
  | TERMINAL
  | LOW_ALTITUDE
  | HIGH_ALTITUDE
  | UNSPECIFIED
deriving DecidableEq

/-- Integer value of a VOR enum member. -/
def VORClass.val : VORClass → Int
  | .TERMINAL => 25
  | .LOW_ALTITUDE => 40
  | .HIGH_ALTITUDE => 130
  | .UNSPECIFIED => 125

/-- The .name attribute of a VOR enum member. -/
def VORClass.nameStr : VORClass → List Char
  | .TERMINAL => "TERMINAL".toList
  | .LOW_ALTITUDE => "LOW_ALTITUDE".toList
  | .HIGH_ALTITUDE => "HIGH_ALTITUDE".toList
  | .UNSPECIFIED => "UNSPECIFIED".toList

/-- Members of the NDB enum in declaration order. -/
def NDB_members : List NDBClass := [.LOCATOR, .LOW_POWER, .NORMAL, .HIGH_POWER]

/-- Members of the VOR enum in declaration order. -/
def VOR_members : List VORClass :=
  [.TERMINAL, .LOW_ALTITUDE, .HIGH_ALTITUDE, .UNSPECIFIED]

/-- Look up an NDB enum: first member whose value equals the number. -/
def ndb_code (number : Int) : Option NDBClass :=
  NDB_members.find? (fun member => member.val == number)

/-- Look up a VOR enum: first member whose value equals the number. -/
def vor_code (number : Int) : Option VORClass :=
  VOR_members.find? (fun member => member.val == number)

/-- Python exception kinds the parser can raise. -/
inductive PyErr
  | valueError
  | typeError
deriving DecidableEq

/-- One component of a decoded record tuple. -/
inductive Fld
  | s (v : List Char)
  | i (v : Int)
  | q (v : ℚ)
  | null
deriving DecidableEq

/-- A decoded record: the Python result tuple, position by position. -/
abbrev Record := List Fld

instance {ε α : Type} [DecidableEq ε] [DecidableEq α] : DecidableEq (Except ε α) :=
  fun x y =>
  match x, y with
  | .ok a, .ok b => if h : a = b then isTrue (by rw [h]) else isFalse (by simp [h])
  | .error a, .error b =>
    if h : a = b then isTrue (by rw [h]) else isFalse (by simp [h])
  | .ok _, .error _ => isFalse (by simp)
  | .error _, .ok _ => isFalse (by simp)

/-- Decoder for row code 2 (non-directional beacon). -/
def parse_ndb (payload : List Char) : Except PyErr Record :=
  match nextField payload with
  | none => .error .valueError
  | some (latS, r1) =>
  match pyFloat latS with
  | none => .error .valueError
  | some lat =>
  match nextField r1 with
  | none => .error .valueError
  | some (lonS, r2) =>
  match pyFloat lonS with
  | none => .error .valueError
  | some lon =>
  match nextField r2 with
  | none => .error .valueError
  | some (elevS, r3) =>
  match pyInt elevS with
  | none => .error .valueError
  | some elev =>
  match nextField r3 with
  | none => .error .valueError
  | some (freqS, r4) =>
  match pyInt freqS with
  | none => .error .valueError
  | some freq =>
  match nextField r4 with
  | none => .error .valueError
  | some (clsS, r5) =>
  match pyInt clsS with
  | none => .error .valueError
  | some clsN =>
  match nextField r5 with
  | none => .error .valueError
  | some (_, r6) =>
  match nextField r6 with
  | none => .error .valueError
  | some (localId, r7) =>
  match nextField r7 with
  | none => .error .valueError
  | some (termRegion, r8) =>
  match nextField r8 with
  | none => .error .valueError
  | some (icaoRegion, r9) =>
    .ok [Fld.s ("NDB".toList), Fld.i 2, Fld.q lat, Fld.q lon,
      Fld.i elev, Fld.i freq,
      (match ndb_code clsN with
       | some member => Fld.s member.nameStr
       | none => Fld.null),
      Fld.null, Fld.s localId, Fld.s termRegion, Fld.s icaoRegion,
      Fld.s (stripL r9)]

/-- Decoder for row code 3 (VOR, VOR-DME, VORTAC). -/
def parse_vor (payload : List Char) : Except PyErr Record :=
  match nextField payload with
  | none => .error .valueError
  | some (latS, r1) =>
  match pyFloat latS with
  | none => .error .valueError
  | some lat =>
  match nextField r1 with
  | none => .error .valueError
  | some (lonS, r2) =>
  match pyFloat lonS with
  | none => .error .valueError
  | some lon =>
  match nextField r2 with
  | none => .error .valueError
  | some (elevS, r3) =>
  match pyInt elevS with
  | none => .error .valueError
  | some elev =>
  match nextField r3 with
  | none => .error .valueError
  | some (freqS, r4) =>
  match pyInt freqS with
  | none => .error .valueError
  | some freq =>
  match nextField r4 with
  | none => .error .valueError
  | some (clsS, r5) =>
  match pyInt clsS with
  | none => .error .valueError
  | some clsN =>
  match nextField r5 with
  | none => .error .valueError
  | some (slvS, r6) =>
  match pyFloat slvS with
  | none => .error .valueError
  | some slv =>
  match nextField r6 with
  | none => .error .valueError
  | some (localId, r7) =>
  match nextField r7 with
  | none => .error .valueError
  | some (enrt, r8) =>
  match nextField r8 with
  | none => .error .valueError
  | some (icaoRegion, r9) =>
    .ok [Fld.s ("VOR".toList), Fld.i 3, Fld.q lat, Fld.q lon,
      Fld.i elev, Fld.i freq,
      (match vor_code clsN with
       | some member => Fld.s member.nameStr
       | none => Fld.null),
      Fld.q slv, Fld.s localId, Fld.s enrt, Fld.s icaoRegion,
      Fld.s (stripL r9)]

/-- Decoder for row codes 4 and 5 (ILS and stand-alone localizers). -/
def parse_loc (payload : List Char) (row_code : Int) : Except PyErr Record :=
  match nextField payload with
  | none => .error .valueError
  | some (latS, r1) =>
  match pyFloat latS with
  | none => .error .valueError
  | some lat =>
  match nextField r1 with
  | none => .error .valueError
  | some (lonS, r2) =>
  match pyFloat lonS with
  | none => .error .valueError
  | some lon =>
  match nextField r2 with
  | none => .error .valueError
  | some (elevS, r3) =>
  match pyInt elevS with
  | none => .error .valueError
  | some elev =>
  match nextField r3 with
  | none => .error .valueError
  | some (freqS, r4) =>
  match pyInt freqS with
  | none => .error .valueError
  | some freq =>
  match nextField r4 with
  | none => .error .valueError
  | some (rangeS, r5) =>
  match pyInt rangeS with
  | none => .error .valueError
  | some range =>
  match nextField r5 with
  | none => .error .valueError
  | some (brgS, r6) =>
  match pyFloat brgS with
  | none => .error .valueError
  | some brg =>
  match nextField r6 with
  | none => .error .valueError
  | some (localId, r7) =>
  match nextField r7 with
  | none => .error .valueError
  | some (airportIcao, r8) =>
  match nextField r8 with
  | none => .error .valueError
  | some (icaoRegion, r9) =>
  match nextField r9 with
  | none => .error .valueError
  | some (runwayNo, r10) =>
    .ok [Fld.s ("LOC".toList), Fld.i row_code, Fld.q lat, Fld.q lon,
      Fld.i elev, Fld.i freq, Fld.i range, Fld.q brg, Fld.s localId,
      Fld.s airportIcao, Fld.s icaoRegion, Fld.s runwayNo,
      Fld.s (stripL r10)]

/-- Decoder for row code 6 (ILS glideslope). -/
def parse_gli (payload : List Char) : Except PyErr Record :=
  match nextField payload with
  | none => .error .valueError
  | some (latS, r1) =>
  match pyFloat latS with
  | none => .error .valueError
  | some lat =>
  match nextField r1 with
  | none => .error .valueError
  | some (lonS, r2) =>
  match pyFloat lonS with
  | none => .error .valueError
  | some lon =>
  match nextField r2 with
  | none => .error .valueError
  | some (elevS, r3) =>
  match pyInt elevS with
  | none => .error .valueError
  | some elev =>
  match nextField r3 with
  | none => .error .valueError
  | some (freqS, r4) =>
  match pyInt freqS with
  | none => .error .valueError
  | some freq =>
  match nextField r4 with
  | none => .error .valueError
  | some (rangeS, r5) =>
  match pyInt rangeS with
  | none => .error .valueError
  | some range =>
  match nextField r5 with
  | none => .error .valueError
  | some (brgS, r6) =>
  match pyFloat brgS with
  | none => .error .valueError
  | some brg =>
  match nextField r6 with
  | none => .error .valueError
  | some (localId, r7) =>
  match nextField r7 with
  | none => .error .valueError
  | some (airportIcao, r8) =>
  match nextField r8 with
  | none => .error .valueError
  | some (icaoRegion, r9) =>
  match nextField r9 with
  | none => .error .valueError
  | some (runwayNo, r10) =>
    .ok [Fld.s ("GLI".toList), Fld.i 6, Fld.q lat, Fld.q lon,
      Fld.i elev, Fld.i freq, Fld.i range, Fld.q brg, Fld.s localId,
      Fld.s airportIcao, Fld.s icaoRegion, Fld.s runwayNo,
      Fld.s (stripL r10)]

/-- Decoder for row codes 7, 8, 9 (outer, middle, inner marker beacons). -/
def parse_mrk (payload : List Char) (row_code : Int) : Except PyErr Record :=
  match nextField payload with
  | none => .error .valueError
  | some (latS, r1) =>
  match pyFloat latS with
  | none => .error .valueError
  | some lat =>
  match nextField r1 with
  | none => .error .valueError
  | some (lonS, r2) =>
  match pyFloat lonS with
  | none => .error .valueError
  | some lon =>
  match nextField r2 with
  | none => .error .valueError
  | some (elevS, r3) =>
  match pyInt elevS with
  | none => .error .valueError
  | some elev =>
  match nextField r3 with
  | none => .error .valueError
  | some (_, r4) =>
  match nextField r4 with
  | none => .error .valueError
  | some (_, r5) =>
  match nextField r5 with
  | none => .error .valueError
  | some (brgS, r6) =>
  match pyFloat brgS with
  | none => .error .valueError
  | some brg =>
  match nextField r6 with
  | none => .error .valueError
  | some (_, r7) =>
  match nextField r7 with
  | none => .error .valueError
  | some (airportIcao, r8) =>
  match nextField r8 with
  | none => .error .valueError
  | some (icaoRegion, r9) =>
  match nextField r9 with
  | none => .error .valueError
  | some (runwayNo, r10) =>
    .ok [Fld.s ("MRK".toList), Fld.i row_code, Fld.q lat, Fld.q lon,
      Fld.i elev, Fld.null, Fld.null, Fld.q brg, Fld.null,
      Fld.s airportIcao, Fld.s icaoRegion, Fld.s runwayNo,
      Fld.s (stripL r10)]

/-- Decoder for row codes 12 and 13 (distance measuring equipment). -/
def parse_dme (payload : List Char) (row_code : Int) : Except PyErr Record :=
  match nextField payload with
  | none => .error .valueError
  | some (latS, r1) =>
  match pyFloat latS with
  | none => .error .valueError
  | some lat =>
  match nextField r1 with
  | none => .error .valueError
  | some (lonS, r2) =>
  match pyFloat lonS with
  | none => .error .valueError
  | some lon =>
  match nextField r2 with
  | none => .error .valueError
  | some (elevS, r3) =>
  match pyInt elevS with
  | none => .error .valueError
  | some elev =>
  match nextField r3 with
  | none => .error .valueError
  | some (freqS, r4) =>
  match pyInt freqS with
  | none => .error .valueError
  | some freq =>
  match nextField r4 with
  | none => .error .valueError
  | some (svcS, r5) =>
  match pyInt svcS with
  | none => .error .valueError
  | some svc =>
  match nextField r5 with
  | none => .error .valueError
  | some (biasS, r6) =>
  match pyFloat biasS with
  | none => .error .valueError
  | some bias =>
  match nextField r6 with
  | none => .error .valueError
  | some (localId, r7) =>
  match nextField r7 with
  | none => .error .valueError
  | some (airportIcao, r8) =>
  match nextField r8 with
  | none => .error .valueError
  | some (icaoRegion, r9) =>
    .ok [Fld.s ("DME".toList), Fld.i row_code, Fld.q lat, Fld.q lon,
      Fld.i elev, Fld.i freq, Fld.i svc, Fld.q bias, Fld.s localId,
      Fld.s airportIcao, Fld.s icaoRegion, Fld.s (stripL r9)]

/-- str(99), the end-of-data sentinel text. -/
def END_ROW_CODE_STR : List Char := "99".toList

/-- Detect end of data token: not row.startswith(str(99)). -/
def has_data (row : List Char) : Bool :=
  !(END_ROW_CODE_STR.isPrefixOf row)

/-- Passthrough decoder for row codes 14, 15 and 16. -/
def echo (payload : List Char) (row_code : Int) : Except PyErr Record :=
  .ok [Fld.s (if row_code = 14 then "FPAP".toList
      else if row_code = 15 then "GLS".toList else "LTP/FTP".toList),
    Fld.i row_code, Fld.s payload]

/-- The dispatch dictionary of parse, as a finite map: parser.get(code). -/
def parserFor (code : Int) : Option (List Char → Except PyErr Record) :=
  if code = 2 then some parse_ndb
  else if code = 3 then some parse_vor
  else if code = 4 then some (fun p => parse_loc p 4)
  else if code = 5 then some (fun p => parse_loc p 5)
  else if code = 6 then some parse_gli
  else if code = 7 then some (fun p => parse_mrk p 7)
  else if code = 8 then some (fun p => parse_mrk p 8)
  else if code = 9 then some (fun p => parse_mrk p 9)
  else if code = 12 then some (fun p => parse_dme p 12)
  else if code = 13 then some (fun p => parse_dme p 13)
  else if code = 14 then some (fun p => echo p 14)
  else if code = 15 then some (fun p => echo p 15)
  else if code = 16 then some (fun p => echo p 16)
  else none

/-- The parse driver for one row: sentinel test, row-code split, integer
conversion, dictionary dispatch.  Returns ok none for the sentinel row
(Python returns None), typeError when the dictionary lookup misses
(Python calls None), valueError when the split or int conversion fails. -/
def parse (row : List Char) : Except PyErr (Option Record) :=
  if has_data row = false then .ok none
  else
    match splitFirstSpace row with
    | none => .error .valueError
    | some (codeS, payload) =>
      match pyInt codeS with
      | none => .error .valueError
      | some code =>
        match parserFor code with
        | none => .error .typeError
        | some d => (d payload).map some

/-- The record stream of main: strip each line, parse it, stop without a
record at the sentinel (parse returned a falsy value), propagate a raised
exception as a fatal stream error, otherwise emit the record and go on. -/
def run : List (List Char) → List Record × Option PyErr
  | [] => ([], none)
  | row :: rest =>
    match parse (stripL row) with
    | .error e => ([], some e)
    | .ok none => ([], none)
    | .ok (some rec) =>
      match run rest with
      | (recs, res) => (rec :: recs, res)

/-- Apply the tokenizer step n times, keeping only the remainder. -/
def consume : Nat → List Char → Option (List Char)
  | 0, s => some s
  | n + 1, s =>
    match nextField s with
    | none => none
    | some (_, r) => consume n r

/-- Tokenizer modelled from the spec text of section 4.2: split on the first
run of whitespace (any whitespace characters) after trimming leading
whitespace. -/
def specNextField (s : List Char) : Option (List Char × List Char) :=
  let t := lstripL s
  if t.any pyIsSpace then
    some (t.takeWhile (fun c => !(pyIsSpace c)),
      (t.dropWhile (fun c => !(pyIsSpace c))).dropWhile pyIsSpace)
  else none

lemma splitFirstSpace_eq_some_iff (l t r : List Char) :
    splitFirstSpace l = some (t, r) ↔ l = t ++ ' ' :: r ∧ ' ' ∉ t := by
  induction l generalizing t r with
  | nil =>
    constructor
    · intro h
      simp [splitFirstSpace] at h
    · rintro ⟨heq, -⟩
      exact absurd heq.symm (by simp)
  | cons c cs ih =>
    simp only [splitFirstSpace]
    by_cases hc : c = ' '
    · subst hc
      simp only [if_pos rfl]
      constructor
      · intro h
        obtain ⟨rfl, rfl⟩ := Prod.mk.injEq .. ▸ Option.some.inj h
        exact ⟨rfl, by simp⟩
      · rintro ⟨heq, hmem⟩
        cases t with
        | nil =>
          simp only [List.nil_append, List.cons.injEq] at heq
          simp [heq.2]
        | cons a t' =>
          simp only [List.cons_append, List.cons.injEq] at heq
          exact absurd (heq.1 ▸ List.mem_cons_self a t') (heq.1 ▸ hmem)
    · simp only [if_neg hc]
      cases hs : splitFirstSpace cs with
      | none =>
        constructor
        · intro h
          simp at h
        · rintro ⟨heq, hmem⟩
          cases t with
          | nil =>
            simp only [List.nil_append, List.cons.injEq] at heq
            exact absurd heq.1 hc
          | cons a t' =>
            simp only [List.cons_append, List.cons.injEq] at heq
            have hm' : ' ' ∉ t' := fun hx => hmem (List.mem_cons_of_mem a hx)
            have := (ih t' r).mpr ⟨heq.2, hm'⟩
            rw [this] at hs
            exact Option.noConfusion hs
      | some tr =>
        obtain ⟨t0, r0⟩ := tr
        have h0 := (ih t0 r0).mp hs
        constructor
        · intro h
          obtain ⟨rfl, rfl⟩ := Prod.mk.injEq .. ▸ Option.some.inj h
          refine ⟨by rw [h0.1]; simp, ?_⟩
          intro hx
          rcases List.mem_cons.mp hx with hx | hx
          · exact hc hx.symm
          · exact h0.2 hx
        · rintro ⟨heq, hmem⟩
          cases t with
          | nil =>
            simp only [List.nil_append, List.cons.injEq] at heq
            exact absurd heq.1 hc
          | cons a t' =>
            simp only [List.cons_append, List.cons.injEq] at heq
            have hm' : ' ' ∉ t' := fun hx => hmem (List.mem_cons_of_mem a hx)
            have := (ih t' r).mpr ⟨heq.2, hm'⟩
            rw [this] at hs
            obtain ⟨rfl, rfl⟩ := Prod.mk.injEq .. ▸ Option.some.inj hs
            rw [heq.1]
  
lemma splitFirstSpace_eq_none_iff (l : List Char) :
    splitFirstSpace l = none ↔ ' ' ∉ l := by
  induction l with
  | nil => simp [splitFirstSpace]
  | cons c cs ih =>
    simp only [splitFirstSpace]
    by_cases hc : c = ' '
    · subst hc
      simp
    · simp only [if_neg hc]
      cases hs : splitFirstSpace cs with
      | none =>
        refine ⟨fun _ hx => ?_, fun _ => rfl⟩
        rcases List.mem_cons.mp hx with hx | hx
        · exact hc hx.symm
        · exact (ih.mp hs) hx
      | some tr =>
        obtain ⟨t0, r0⟩ := tr
        refine ⟨fun h => Option.noConfusion h, fun h => ?_⟩
        have hsp : ' ' ∈ cs := by
          have h0 := (splitFirstSpace_eq_some_iff cs t0 r0).mp hs
          rw [h0.1]
          simp
        exact absurd (List.mem_cons_of_mem c hsp) h

lemma nextField_eq_some_iff (s t r : List Char) :
    nextField s = some (t, r) ↔ lstripL s = t ++ ' ' :: r ∧ ' ' ∉ t := by
  simpa [nextField] using splitFirstSpace_eq_some_iff (lstripL s) t r

lemma nextField_eq_none_iff (s : List Char) :
    nextField s = none ↔ ' ' ∉ lstripL s := by
  simpa [nextField] using splitFirstSpace_eq_none_iff (lstripL s)

lemma run_cons_ok {row : List Char} {rest : List (List Char)} {rec : Record}
    (h : parse (stripL row) = .ok (some rec)) :
    run (row :: rest) = (rec :: (run rest).1, (run rest).2) := by
  rcases hr : run rest with ⟨recs, res⟩
  simp [run, h, hr]

lemma run_cons_sentinel {row : List Char} {rest : List (List Char)}
    (h : parse (stripL row) = .ok none) :
    run (row :: rest) = ([], none) := by
  simp [run, h]

lemma run_cons_err {row : List Char} {rest : List (List Char)} {e : PyErr}
    (h : parse (stripL row) = .error e) :
    run (row :: rest) = ([], some e) := by
  simp [run, h]

lemma run_append_ok (pre l : List (List Char))
    (h : ∀ r ∈ pre, ∃ rec, parse (stripL r) = .ok (some rec)) :
    (run (pre ++ l)).1.length = pre.length + (run l).1.length ∧
      (run (pre ++ l)).2 = (run l).2 := by
  induction pre with
  | nil => simp
  | cons row pre ih =>
    obtain ⟨rec, hrec⟩ := h row (List.mem_cons_self row pre)
    have ih' := ih (fun r hr => h r (List.mem_cons_of_mem row hr))
    obtain ⟨ihl, ihr⟩ := ih'
    rw [List.cons_append, run_cons_ok hrec]
    simp only [List.length_cons]
    exact ⟨by omega, ihr⟩

lemma run_post_indep (pre : List (List Char)) (row : List Char)
    (post post' : List (List Char)) (h : parse (stripL row) = .ok none) :
    run (pre ++ row :: post) = run (pre ++ row :: post') := by
  induction pre with
  | nil => rw [List.nil_append, List.nil_append, run_cons_sentinel h,
      run_cons_sentinel h]
  | cons r pre ih =>
    rw [List.cons_append, List.cons_append]
    cases hp : parse (stripL r) with
    | error e => rw [run_cons_err hp, run_cons_err hp]
    | ok o =>
      cases o with
      | none => rw [run_cons_sentinel hp, run_cons_sentinel hp]
      | some rec => rw [run_cons_ok hp, run_cons_ok hp, ih]

lemma ndb_code_eq (n : Int) :
    ndb_code n = (if n = 15 then some NDBClass.LOCATOR
      else if n = 25 then some NDBClass.LOW_POWER
      else if n = 50 then some NDBClass.NORMAL
      else if n = 75 then some NDBClass.HIGH_POWER else none) := by
  by_cases h1 : n = 15
  · subst h1; decide
  · rw [if_neg h1]
    by_cases h2 : n = 25
    · subst h2; decide
    · rw [if_neg h2]
      by_cases h3 : n = 50
      · subst h3; decide
      · rw [if_neg h3]
        by_cases h4 : n = 75
        · subst h4; decide
        · rw [if_neg h4]
          have b1 : ((15 : Int) == n) = false := decide_eq_false fun hh => h1 hh.symm
          have b2 : ((25 : Int) == n) = false := decide_eq_false fun hh => h2 hh.symm
          have b3 : ((50 : Int) == n) = false := decide_eq_false fun hh => h3 hh.symm
          have b4 : ((75 : Int) == n) = false := decide_eq_false fun hh => h4 hh.symm
          simp [ndb_code, NDB_members, List.find?, NDBClass.val, b1, b2, b3, b4]

lemma vor_code_eq (n : Int) :
    vor_code n = (if n = 25 then some VORClass.TERMINAL
      else if n = 40 then some VORClass.LOW_ALTITUDE
      else if n = 130 then some VORClass.HIGH_ALTITUDE
      else if n = 125 then some VORClass.UNSPECIFIED else none) := by
  by_cases h1 : n = 25
  · subst h1; decide
  · rw [if_neg h1]
    by_cases h2 : n = 40
    · subst h2; decide
    · rw [if_neg h2]
      by_cases h3 : n = 130
      · subst h3; decide
      · rw [if_neg h3]
        by_cases h4 : n = 125
        · subst h4; decide
        · rw [if_neg h4]
          have b1 : ((25 : Int) == n) = false := decide_eq_false fun hh => h1 hh.symm
          have b2 : ((40 : Int) == n) = false := decide_eq_false fun hh => h2 hh.symm
          have b3 : ((130 : Int) == n) = false := decide_eq_false fun hh => h3 hh.symm
          have b4 : ((125 : Int) == n) = false := decide_eq_false fun hh => h4 hh.symm
          simp [vor_code, VOR_members, List.find?, VORClass.val, b1, b2, b3, b4]

lemma consume_zero (s : List Char) : consume 0 s = some s := rfl

lemma consume_succ (n : Nat) (s : List Char) :
    consume (n + 1) s = match nextField s with
      | none => none
      | some (_, r) => consume n r := rfl

/-- Claim C5: whenever a payload runs out of whitespace-delimited tokens
before a decoder has consumed all required fields of its fixed layout (9
tokenizer steps for NDB, VOR and DME, 10 for LOC, GLI and MRK), that
decoder fails with a ValueError instead of defaulting the missing fields,
and any row-level decode error makes the stream driver stop with that
error. -/
theorem c5_truncated (payload : List Char) (rc : Int) (row : List Char)
    (rest : List (List Char)) (e : PyErr) :
    (consume 9 payload = none → parse_ndb payload = .error .valueError) ∧
    (consume 9 payload = none → parse_vor payload = .error .valueError) ∧
    (consume 10 payload = none → parse_loc payload rc = .error .valueError) ∧
    (consume 10 payload = none → parse_gli payload = .error .valueError) ∧
    (consume 10 payload = none → parse_mrk payload rc = .error .valueError) ∧
    (consume 9 payload = none → parse_dme payload rc = .error .valueError) ∧
    (parse (stripL row) = .error e → run (row :: rest) = ([], some e)) := by
  refine ⟨?_, ?_, ?_, ?_, ?_, ?_, fun h => run_cons_err h⟩
  · intro h
    unfold parse_ndb
    repeat' split
    all_goals first
      | rfl
      | (exfalso; simp_all [consume_succ, consume_zero])
  · intro h
    unfold parse_vor
    repeat' split
    all_goals first
      | rfl
      | (exfalso; simp_all [consume_succ, consume_zero])
  · intro h
    unfold parse_loc
    repeat' split
    all_goals first
      | rfl
      | (exfalso; simp_all [consume_succ, consume_zero])
  · intro h
    unfold parse_gli
    repeat' split
    all_goals first
      | rfl
      | (exfalso; simp_all [consume_succ, consume_zero])
  · intro h
    unfold parse_mrk
    repeat' split
    all_goals first
      | rfl
      | (exfalso; simp_all [consume_succ, consume_zero])
  · intro h
    unfold parse_dme
    repeat' split
    all_goals first
      | rfl
      | (exfalso; simp_all [consume_succ, consume_zero])

/-- Claim C2: the NDB class lookup returns LOCATOR, LOW_POWER, NORMAL,
HIGH_POWER exactly for raw codes 15, 25, 50, 75 and none otherwise, and the
VOR class lookup returns TERMINAL, LOW_ALTITUDE, HIGH_ALTITUDE, UNSPECIFIED
exactly for raw codes 25, 40, 130, 125 and none otherwise; lookup is exact
integer match, never partial or range matching. -/
theorem c2_class_lookup (n : Int) :
    ndb_code n = (if n = 15 then some NDBClass.LOCATOR
      else if n = 25 then some NDBClass.LOW_POWER
      else if n = 50 then some NDBClass.NORMAL
      else if n = 75 then some NDBClass.HIGH_POWER else none) ∧
    vor_code n = (if n = 25 then some VORClass.TERMINAL
      else if n = 40 then some VORClass.LOW_ALTITUDE
      else if n = 130 then some VORClass.HIGH_ALTITUDE
      else if n = 125 then some VORClass.UNSPECIFIED else none) :=
  ⟨ndb_code_eq n, vor_code_eq n⟩

section
attribute [local semireducible] Rat.add Rat.mul Rat.inv Rat.sub

/-- Claim C3: the NDB decoder applied to the payload of the documented
example row yields kind NDB, row code 2, latitude 5.676183333, longitude
-0.137808333, elevation 0 ft, frequency 409 kHz, class LOW_POWER, local
identifier AA, region context ENRT, ICAO region DG and name ACCRA NDB. -/
theorem c3_ndb_example :
    parse_ndb ("  5.676183333   -0.137808333        0      409    25      0.000   AA ENRT DG ACCRA NDB".toList) =
      .ok [Fld.s ("NDB".toList), Fld.i 2, Fld.q ((5676183333 : ℚ) / 1000000000),
        Fld.q (-((137808333 : ℚ) / 1000000000)), Fld.i 0, Fld.i 409,
        Fld.s ("LOW_POWER".toList), Fld.null, Fld.s ("AA".toList),
        Fld.s ("ENRT".toList), Fld.s ("DG".toList), Fld.s ("ACCRA NDB".toList)] := by
  decide

end

/-- Claim C8, counterexample: for row code 16 the passthrough decoder labels
the record with the string LTP/FTP, not LTP_FTP as the claim states. -/
theorem c8_cex :
    echo ("x".toList) 16 = .ok [Fld.s ("LTP/FTP".toList), Fld.i 16, Fld.s ("x".toList)] ∧
      echo ("x".toList) 16 ≠
        .ok [Fld.s ("LTP_FTP".toList), Fld.i 16, Fld.s ("x".toList)] :=
  ⟨by decide, by decide⟩

/-- Claim C8, amended: for every row with leading code 14, 15 or 16, the
passthrough decoder returns the entire unparsed payload together with the
fixed kind label FPAP for code 14, GLS for code 15 and LTP/FTP (with a
slash) for code 16, and the parse driver routes those codes to it. -/
theorem c8_passthrough_amended (payload : List Char) :
    echo payload 14 = .ok [Fld.s ("FPAP".toList), Fld.i 14, Fld.s payload] ∧
    echo payload 15 = .ok [Fld.s ("GLS".toList), Fld.i 15, Fld.s payload] ∧
    echo payload 16 = .ok [Fld.s ("LTP/FTP".toList), Fld.i 16, Fld.s payload] ∧
    parse ('1' :: '4' :: ' ' :: payload) =
      .ok (some [Fld.s ("FPAP".toList), Fld.i 14, Fld.s payload]) ∧
    parse ('1' :: '5' :: ' ' :: payload) =
      .ok (some [Fld.s ("GLS".toList), Fld.i 15, Fld.s payload]) ∧
    parse ('1' :: '6' :: ' ' :: payload) =
      .ok (some [Fld.s ("LTP/FTP".toList), Fld.i 16, Fld.s payload]) := by
  refine ⟨by simp [echo], by simp [echo], by simp [echo], ?_, ?_, ?_⟩
  · have hsp : splitFirstSpace ('1' :: '4' :: ' ' :: payload) =
        some (['1', '4'], payload) := by simp [splitFirstSpace]
    simp [parse, has_data, END_ROW_CODE_STR, hsp,
      show pyInt (['1', '4']) = some 14 from by decide, parserFor, echo, Except.map]
  · have hsp : splitFirstSpace ('1' :: '5' :: ' ' :: payload) =
        some (['1', '5'], payload) := by simp [splitFirstSpace]
    simp [parse, has_data, END_ROW_CODE_STR, hsp,
      show pyInt (['1', '5']) = some 15 from by decide, parserFor, echo, Except.map]
  · have hsp : splitFirstSpace ('1' :: '6' :: ' ' :: payload) =
        some (['1', '6'], payload) := by simp [splitFirstSpace]
    simp [parse, has_data, END_ROW_CODE_STR, hsp,
      show pyInt (['1', '6']) = some 16 from by decide, parserFor, echo, Except.map]

/-- Claim C9, counterexample: on the payload a-tab-b-space-c the tokenizer
returns the field a-tab-b, so it does not split at the first run of
arbitrary whitespace (which would return the field a) but only at the first
single space character. -/
theorem c9_cex :
    nextField ("a\tb c".toList) = some ("a\tb".toList, "c".toList) ∧
      specNextField ("a\tb c".toList) = some ("a".toList, "b c".toList) ∧
      nextField ("a\tb c".toList) ≠ specNextField ("a\tb c".toList) :=
  ⟨by decide, by decide, by decide⟩

/-- Claim C9, amended: the tokenizer trims leading whitespace (any
whitespace characters) and then splits at the first occurrence of the
single space character; it yields the field and remainder exactly when the
trimmed payload is the space-free field, one space, and the remainder, and
it fails exactly when the trimmed payload holds no space character.  Other
whitespace characters such as tab never act as separators. -/
theorem c9_tokenizer_amended (s t r : List Char) :
    (nextField s = some (t, r) ↔ lstripL s = t ++ ' ' :: r ∧ ' ' ∉ t) ∧
      (nextField s = none ↔ ' ' ∉ lstripL s) :=
  ⟨nextField_eq_some_iff s t r, nextField_eq_none_iff s⟩

/-- Claim C10: end-of-data detection is a string-prefix test, applied to
the trimmed row before any row-code split or dispatch: a row is a sentinel
exactly when its text begins with the two characters 99, and every such row
(including rows whose leading integer is not 99, such as 990) makes parse
return no record and makes the driver terminate the stream. -/
theorem c10_prefix_sentinel (row : List Char) (rest : List (List Char)) :
    (has_data row = false ↔ END_ROW_CODE_STR.isPrefixOf row = true) ∧
    (END_ROW_CODE_STR.isPrefixOf row = true → parse row = .ok none) ∧
    (END_ROW_CODE_STR.isPrefixOf row = true → stripL row = row →
      run (row :: rest) = ([], none)) := by
  refine ⟨?_, ?_, ?_⟩
  · simp [has_data]
  · intro h
    simp [parse, has_data, h]
  · intro h hs
    have hp : parse (stripL row) = .ok none := by
      rw [hs]
      simp [parse, has_data, h]
    exact run_cons_sentinel hp

theorem c10_prefix_sentinel_witness :
    has_data ("990abc".toList) = false ∧ parse ("990abc".toList) = .ok none ∧
      run ["990abc".toList, "2 x".toList] = ([], none) := by
  obtain ⟨h1, h2, h3⟩ := c10_prefix_sentinel ("990abc".toList) ["2 x".toList]
  exact ⟨h1.mpr (by decide), h2 (by decide), h3 (by decide) (by decide)⟩

/-- Claim C1, counterexample: a stream whose first row text begins with the
characters 99 but has leading integer code 990 already terminates there,
emitting no record for a decodable row that precedes the first row whose
leading code is 99 — so the stream does not halt exactly at the first
99-code row. -/
theorem c1_cex :
    run ["990 0".toList, "14 x".toList, "99 end".toList] = ([], none) ∧
      parse (stripL ("14 x".toList)) =
        .ok (some [Fld.s ("FPAP".toList), Fld.i 14, Fld.s ("x".toList)]) ∧
      pyInt ("990".toList) = some 990 ∧
      splitFirstSpace ("990 0".toList) = some ("990".toList, "0".toList) :=
  ⟨by decide, by decide, by decide, by decide⟩

/-- Claim C1, amended: for every sequence of rows that each decode to a
record, followed by a row whose trimmed text begins with the string 99 (in
particular every row with leading code 99), the stream emits exactly one
record per preceding row, terminates without error, emits no record for the
sentinel row, and its result does not depend on the lines after the
sentinel, which are never read. -/
theorem c1_halt_amended (pre : List (List Char)) (row : List Char)
    (post post' : List (List Char))
    (hpre : ∀ r ∈ pre, ∃ rec, parse (stripL r) = .ok (some rec))
    (hrow : END_ROW_CODE_STR.isPrefixOf (stripL row) = true) :
    (run (pre ++ row :: post)).1.length = pre.length ∧
      (run (pre ++ row :: post)).2 = none ∧
      run (pre ++ row :: post) = run (pre ++ row :: post') := by
  have hp : parse (stripL row) = .ok none := by
    simp [parse, has_data, hrow]
  have h1 := run_append_ok pre (row :: post) hpre
  have h2 : run (row :: post) = ([], none) := run_cons_sentinel hp
  refine ⟨?_, ?_, run_post_indep pre row post post' hp⟩
  · rw [h1.1, h2]
    simp
  · rw [h1.2, h2]

theorem c1_halt_amended_witness :
    (run (["14 h".toList] ++ ("99".toList) :: ["2 junk".toList])).1.length = 1 ∧
      (run (["14 h".toList] ++ ("99".toList) :: ["2 junk".toList])).2 = none ∧
      run (["14 h".toList] ++ ("99".toList) :: ["2 junk".toList]) =
        run (["14 h".toList] ++ ("99".toList) :: []) := by
  refine c1_halt_amended ["14 h".toList] ("99".toList) ["2 junk".toList] [] ?_ (by decide)
  intro r hr
  rw [List.mem_singleton] at hr
  subst hr
  exact ⟨[Fld.s ("FPAP".toList), Fld.i 14, Fld.s ("h".toList)], by decide⟩

/-- Claim C4: a non-sentinel row whose leading integer row code lies
outside the closed dispatch set 2-9, 12-16 makes parse raise a TypeError,
which is fatal for the whole stream: the records of the preceding
well-formed rows are emitted, no record is emitted for the offending row,
and the stream ends with the error. -/
theorem c4_unknown_code (row : List Char) (rest : List (List Char))
    (pre : List (List Char)) (codeS payload : List Char) (c : Int)
    (hd : has_data row = true)
    (hsp : splitFirstSpace row = some (codeS, payload))
    (hint : pyInt codeS = some c)
    (hc : c ∉ ([2, 3, 4, 5, 6, 7, 8, 9, 12, 13, 14, 15, 16] : List Int))
    (hst : stripL row = row)
    (hpre : ∀ r ∈ pre, ∃ rec, parse (stripL r) = .ok (some rec)) :
    parse row = .error .typeError ∧
      (run (pre ++ row :: rest)).1.length = pre.length ∧
      (run (pre ++ row :: rest)).2 = some PyErr.typeError := by
  simp only [List.mem_cons, List.not_mem_nil, or_false, not_or] at hc
  obtain ⟨n2, n3, n4, n5, n6, n7, n8, n9, n12, n13, n14, n15, n16⟩ := hc
  have hpf : parserFor c = none := by
    simp [parserFor, n2, n3, n4, n5, n6, n7, n8, n9, n12, n13, n14, n15, n16]
  have hp : parse row = .error .typeError := by
    simp [parse, hd, hsp, hint, hpf]
  have hrun : run (row :: rest) = ([], some PyErr.typeError) :=
    run_cons_err (by rw [hst]; exact hp)
  have h1 := run_append_ok pre (row :: rest) hpre
  exact ⟨hp, by rw [h1.1, hrun]; simp, by rw [h1.2, hrun]⟩

theorem c4_unknown_code_witness :
    parse ("20 x".toList) = .error .typeError ∧
      (run ([] ++ ("20 x".toList) :: [])).1.length = 0 ∧
      (run ([] ++ ("20 x".toList) :: [])).2 = some PyErr.typeError := by
  refine c4_unknown_code ("20 x".toList) [] [] ("20".toList) ("x".toList) 20
    (by decide) (by decide) (by decide) (by decide) (by decide) ?_
  intro r hr
  exact absurd hr (List.not_mem_nil r)

section
attribute [local semireducible] Rat.add Rat.mul Rat.inv Rat.sub

theorem c5_truncated_witness :
    consume 9 ("1.0 2.0".toList) = none ∧
      parse_ndb ("1.0 2.0".toList) = .error .valueError ∧
      parse_vor ("1.0 2.0".toList) = .error .valueError ∧
      consume 10 ("1.0 2.0".toList) = none ∧
      parse_loc ("1.0 2.0".toList) 12 = .error .valueError ∧
      parse_gli ("1.0 2.0".toList) = .error .valueError ∧
      parse_mrk ("1.0 2.0".toList) 12 = .error .valueError ∧
      parse_dme ("1.0 2.0".toList) 12 = .error .valueError ∧
      run ["2 1.0 2.0".toList] = ([], some PyErr.valueError) := by
  obtain ⟨p1, p2, p3, p4, p5, p6, p7⟩ :=
    c5_truncated ("1.0 2.0".toList) 12 ("2 1.0 2.0".toList) [] PyErr.valueError
  exact ⟨by decide, p1 (by decide), p2 (by decide), by decide, p3 (by decide),
    p4 (by decide), p5 (by decide), p6 (by decide), p7 (by decide)⟩

/-- Claim C6: an NDB or VOR row whose fields all tokenize and convert, but
whose class-code integer matches no enumerated member, still decodes
successfully and carries a null classification field; the unmatched class
code never aborts decoding. -/
theorem c6_unmatched_class :
    (∀ (payload t1 r1 t2 r2 t3 r3 t4 r4 t5 r5 t6 r6 t7 r7 t8 r8 t9 r9 : List Char)
      (lat lon : ℚ) (elev freq k : Int),
      nextField payload = some (t1, r1) → pyFloat t1 = some lat →
      nextField r1 = some (t2, r2) → pyFloat t2 = some lon →
      nextField r2 = some (t3, r3) → pyInt t3 = some elev →
      nextField r3 = some (t4, r4) → pyInt t4 = some freq →
      nextField r4 = some (t5, r5) → pyInt t5 = some k →
      nextField r5 = some (t6, r6) → nextField r6 = some (t7, r7) →
      nextField r7 = some (t8, r8) → nextField r8 = some (t9, r9) →
      k ∉ ([15, 25, 50, 75] : List Int) →
      parse_ndb payload = .ok [Fld.s ("NDB".toList), Fld.i 2, Fld.q lat,
        Fld.q lon, Fld.i elev, Fld.i freq, Fld.null, Fld.null, Fld.s t7,
        Fld.s t8, Fld.s t9, Fld.s (stripL r9)]) ∧
    (∀ (payload t1 r1 t2 r2 t3 r3 t4 r4 t5 r5 t6 r6 t7 r7 t8 r8 t9 r9 : List Char)
      (lat lon slv : ℚ) (elev freq k : Int),
      nextField payload = some (t1, r1) → pyFloat t1 = some lat →
      nextField r1 = some (t2, r2) → pyFloat t2 = some lon →
      nextField r2 = some (t3, r3) → pyInt t3 = some elev →
      nextField r3 = some (t4, r4) → pyInt t4 = some freq →
      nextField r4 = some (t5, r5) → pyInt t5 = some k →
      nextField r5 = some (t6, r6) → pyFloat t6 = some slv →
      nextField r6 = some (t7, r7) →
      nextField r7 = some (t8, r8) → nextField r8 = some (t9, r9) →
      k ∉ ([25, 40, 130, 125] : List Int) →
      parse_vor payload = .ok [Fld.s ("VOR".toList), Fld.i 3, Fld.q lat,
        Fld.q lon, Fld.i elev, Fld.i freq, Fld.null, Fld.q slv, Fld.s t7,
        Fld.s t8, Fld.s t9, Fld.s (stripL r9)]) := by
  constructor
  · intro payload t1 r1 t2 r2 t3 r3 t4 r4 t5 r5 t6 r6 t7 r7 t8 r8 t9 r9
      lat lon elev freq k h1 hf1 h2 hf2 h3 hi3 h4 hi4 h5 hi5 h6 h7 h8 h9 hk
    have hn : ndb_code k = none := by
      simp only [List.mem_cons, List.not_mem_nil, or_false, not_or] at hk
      obtain ⟨a1, a2, a3, a4⟩ := hk
      rw [ndb_code_eq]
      simp [a1, a2, a3, a4]
    simp [parse_ndb, h1, hf1, h2, hf2, h3, hi3, h4, hi4, h5, hi5, h6, h7, h8,
      h9, hn]
  · intro payload t1 r1 t2 r2 t3 r3 t4 r4 t5 r5 t6 r6 t7 r7 t8 r8 t9 r9
      lat lon slv elev freq k h1 hf1 h2 hf2 h3 hi3 h4 hi4 h5 hi5 h6 hf6 h7 h8
      h9 hk
    have hn : vor_code k = none := by
      simp only [List.mem_cons, List.not_mem_nil, or_false, not_or] at hk
      obtain ⟨a1, a2, a3, a4⟩ := hk
      rw [vor_code_eq]
      simp [a1, a2, a3, a4]
    simp [parse_vor, h1, hf1, h2, hf2, h3, hi3, h4, hi4, h5, hi5, h6, hf6, h7,
      h8, h9, hn]

theorem c6_unmatched_class_witness :
    parse_ndb ("1.0 2.0 3 4 99 0.0 AA ENRT DG X".toList) =
      .ok [Fld.s ("NDB".toList), Fld.i 2, Fld.q 1, Fld.q 2, Fld.i 3, Fld.i 4,
        Fld.null, Fld.null, Fld.s ("AA".toList), Fld.s ("ENRT".toList),
        Fld.s ("DG".toList), Fld.s ("X".toList)] ∧
    parse_vor ("1.0 2.0 3 4 99 5.0 VV ENRT K2 X".toList) =
      .ok [Fld.s ("VOR".toList), Fld.i 3, Fld.q 1, Fld.q 2, Fld.i 3, Fld.i 4,
        Fld.null, Fld.q 5, Fld.s ("VV".toList), Fld.s ("ENRT".toList),
        Fld.s ("K2".toList), Fld.s ("X".toList)] := by
  constructor
  · exact c6_unmatched_class.1 ("1.0 2.0 3 4 99 0.0 AA ENRT DG X".toList)
      ("1.0".toList) ("2.0 3 4 99 0.0 AA ENRT DG X".toList)
      ("2.0".toList) ("3 4 99 0.0 AA ENRT DG X".toList)
      ("3".toList) ("4 99 0.0 AA ENRT DG X".toList)
      ("4".toList) ("99 0.0 AA ENRT DG X".toList)
      ("99".toList) ("0.0 AA ENRT DG X".toList)
      ("0.0".toList) ("AA ENRT DG X".toList)
      ("AA".toList) ("ENRT DG X".toList)
      ("ENRT".toList) ("DG X".toList)
      ("DG".toList) ("X".toList)
      1 2 3 4 99
      (by decide) (by decide) (by decide) (by decide) (by decide) (by decide)
      (by decide) (by decide) (by decide) (by decide) (by decide) (by decide)
      (by decide) (by decide) (by decide)
  · exact c6_unmatched_class.2 ("1.0 2.0 3 4 99 5.0 VV ENRT K2 X".toList)
      ("1.0".toList) ("2.0 3 4 99 5.0 VV ENRT K2 X".toList)
      ("2.0".toList) ("3 4 99 5.0 VV ENRT K2 X".toList)
      ("3".toList) ("4 99 5.0 VV ENRT K2 X".toList)
      ("4".toList) ("99 5.0 VV ENRT K2 X".toList)
      ("99".toList) ("5.0 VV ENRT K2 X".toList)
      ("5.0".toList) ("VV ENRT K2 X".toList)
      ("VV".toList) ("ENRT K2 X".toList)
      ("ENRT".toList) ("K2 X".toList)
      ("K2".toList) ("X".toList)
      1 2 5 3 4 99
      (by decide) (by decide) (by decide) (by decide) (by decide) (by decide)
      (by decide) (by decide) (by decide) (by decide) (by decide) (by decide)
      (by decide) (by decide) (by decide) (by decide)

/-- Claim C7, counterexample: on the documented DME-ILS example row the DME
decoder yields a 12-slot record whose eleventh slot (the ICAO-region
position) holds the runway token 14L and whose last slot is the name
DME-ILS — there is no distinct runway field. -/
theorem c7_cex :
    parse_dme ("-09.43270300  147.21644400    128 11010  18       0.200 IWG  AYPY 14L DME-ILS".toList) 12 =
      .ok [Fld.s ("DME".toList), Fld.i 12, Fld.q (-((943270300 : ℚ) / 100000000)),
        Fld.q ((14721644400 : ℚ) / 100000000), Fld.i 128, Fld.i 11010, Fld.i 18,
        Fld.q ((200 : ℚ) / 1000), Fld.s ("IWG".toList), Fld.s ("AYPY".toList),
        Fld.s ("14L".toList), Fld.s ("DME-ILS".toList)] := by
  decide

/-- Claim C7, amended: the DME decoder consumes, in order, lat, lon,
elev_ft, freq_MHzx100, service volume, bias, local_id, airport_icao,
icao_region, and then the name as the trimmed remainder; it has no runway
field, so a DME-ILS row leaves its runway token in the icao_region
position. -/
theorem c7_dme_layout_amended
    (payload t1 r1 t2 r2 t3 r3 t4 r4 t5 r5 t6 r6 t7 r7 t8 r8 t9 r9 : List Char)
    (rc : Int) (lat lon bias : ℚ) (elev freq svc : Int) :
    nextField payload = some (t1, r1) → pyFloat t1 = some lat →
    nextField r1 = some (t2, r2) → pyFloat t2 = some lon →
    nextField r2 = some (t3, r3) → pyInt t3 = some elev →
    nextField r3 = some (t4, r4) → pyInt t4 = some freq →
    nextField r4 = some (t5, r5) → pyInt t5 = some svc →
    nextField r5 = some (t6, r6) → pyFloat t6 = some bias →
    nextField r6 = some (t7, r7) → nextField r7 = some (t8, r8) →
    nextField r8 = some (t9, r9) →
    parse_dme payload rc = .ok [Fld.s ("DME".toList), Fld.i rc, Fld.q lat,
      Fld.q lon, Fld.i elev, Fld.i freq, Fld.i svc, Fld.q bias, Fld.s t7,
      Fld.s t8, Fld.s t9, Fld.s (stripL r9)] := by
  intro h1 hf1 h2 hf2 h3 hi3 h4 hi4 h5 hi5 h6 hf6 h7 h8 h9
  simp [parse_dme, h1, hf1, h2, hf2, h3, hi3, h4, hi4, h5, hi5, h6, hf6, h7,
    h8, h9]

theorem c7_dme_layout_amended_witness :
    parse_dme ("1.0 2.0 3 4 5 6.0 ID AP RG NM".toList) 13 =
      .ok [Fld.s ("DME".toList), Fld.i 13, Fld.q 1, Fld.q 2, Fld.i 3, Fld.i 4,
        Fld.i 5, Fld.q 6, Fld.s ("ID".toList), Fld.s ("AP".toList),
        Fld.s ("RG".toList), Fld.s ("NM".toList)] :=
  c7_dme_layout_amended ("1.0 2.0 3 4 5 6.0 ID AP RG NM".toList)
    ("1.0".toList) ("2.0 3 4 5 6.0 ID AP RG NM".toList)
    ("2.0".toList) ("3 4 5 6.0 ID AP RG NM".toList)
    ("3".toList) ("4 5 6.0 ID AP RG NM".toList)
    ("4".toList) ("5 6.0 ID AP RG NM".toList)
    ("5".toList) ("6.0 ID AP RG NM".toList)
    ("6.0".toList) ("ID AP RG NM".toList)
    ("ID".toList) ("AP RG NM".toList)
    ("AP".toList) ("RG NM".toList)
    ("RG".toList) ("NM".toList)
    13 1 2 6 3 4 5
    (by decide) (by decide) (by decide) (by decide) (by decide) (by decide)
    (by decide) (by decide) (by decide) (by decide) (by decide) (by decide)
    (by decide) (by decide) (by decide)

end
